import Mathlib

/-!
Verification of the Free-Models-IA monitoring/probing logic.

Shallow embedding of:
- `packages/types/src/index.ts` (data model),
- `packages/core/src/index.ts` (metrics, sorting, filtering, core `ping`),
- the two Next.js API routes (`pingModel` for `/api/ping-model`,
  `pingProvider` for `/api/ping`),
- the explorer-page probe/monitoring client logic (the variant with an
  `AbortSignal` and the dashboard variant without one).

JS numbers used as latencies are modelled as `Nat` millisecond durations;
`Math.round(a / b)` on such naturals is modelled exactly (round half up);
the JS sentinel `Infinity` and `NaN` arithmetic used by the sort
comparator is modelled by an explicit extended-number type.
-/

namespace FreeModels

/-- JS value of the `ms` field of a `PingResult`: `number | TIMEOUT`. -/
inductive Ms where
  | num (n : Nat)
  | timeout
deriving DecidableEq, Repr

/-- Mirror of `PingResultSchema`: one ping, `ms` plus HTTP code as string. -/
structure PingResult where
  ms : Ms
  code : String
deriving DecidableEq, Repr

/-- Mirror of `ModelResultSchema` (packages/types). Tiers, statuses and
provider keys are TS string enums, kept as strings. -/
structure ModelResult where
  idx : Int
  modelId : String
  label : String
  tier : String
  sweScore : String
  ctx : String
  providerKey : Option String
  status : String
  pings : List PingResult
  httpCode : Option String
  hidden : Bool
deriving DecidableEq, Repr

/-- JS string falsiness test for `if (!x)` on a possibly-absent string:
true exactly for `null`/`undefined` and the empty string. -/
def jsFalsyStr : Option String → Bool
  | none => true
  | some s => s = ""

/-- JS `String.prototype.toUpperCase`, character-wise (the inputs here
are ASCII tier letters). -/
def jsToUpper (s : String) : String := ⟨s.data.map Char.toUpper⟩

/-- Math.round of the exact ratio `total / count` of two naturals
(JS rounds half up, and for latency-sized integers the float64 division
is exact enough that the exact-rational rounding coincides). -/
def jsRound (total count : Nat) : Nat :=
  (2 * total + count) / (2 * count)

namespace Core

/-! Embedding of `packages/core/src/index.ts` (src/unnamed/part_010). -/

def TIER_ORDER_CONST : List String :=
  ["S+", "S", "A+", "A", "A-", "B+", "B", "B-", "C+", "C", "D"]

def VERDICT_ORDER_CONST : List String :=
  ["Perfect", "Normal", "Slow", "Very Slow", "Overloaded", "Unstable",
   "Not Active", "Pending"]

def TIER_LETTER_MAP_CONST : List (String × List String) :=
  [("S", ["S+", "S"]),
   ("A", ["A+", "A", "A-"]),
   ("B", ["B+", "B"]),
   ("C", ["C"])]

def DEFAULT_PING_TIMEOUT : Nat := 15000

def DEFAULT_PING_INTERVAL : Nat := 2000

/-- JS `getAvg` return value: a number, or `Infinity` when no ping with
code 200 exists. -/
inductive AvgResult where
  | infinity
  | val (n : Nat)
deriving DecidableEq, Repr

/-- The summand used by `getAvg`: `typeof p.ms === number ? p.ms : 0`. -/
def msToNum : Ms → Nat
  | .num n => n
  | .timeout => 0

/-- Core `getAvg`: mean (Math.round) over the pings whose code is 200,
`Infinity` when there are none. -/
def getAvg (result : ModelResult) : AvgResult :=
  let successfulPings := result.pings.filter (fun p => p.code = "200")
  if successfulPings.length = 0 then .infinity
  else
    let totalMs := successfulPings.foldl (fun sum p => sum + msToNum p.ms) 0
    .val (jsRound totalMs successfulPings.length)

/-- Core `getUptime`: `Math.round((successful / total) * 100)`, 0 when no
pings were made. -/
def getUptime (result : ModelResult) : Nat :=
  if result.pings.length = 0 then 0
  else
    let successful := (result.pings.filter (fun p => p.code = "200")).length
    jsRound (successful * 100) result.pings.length

/-- Core `getVerdict`: verdict from average latency and status. -/
def getVerdict (result : ModelResult) : String :=
  let avg := getAvg result
  let wasUpBefore :=
    result.pings.length > 0 && result.pings.any (fun p => p.code = "200")
  if result.httpCode = some "429" then "Overloaded"
  else if (result.status = "timeout" || result.status = "down") && wasUpBefore then
    "Unstable"
  else if result.status = "timeout" || result.status = "down" then "Not Active"
  else
    match avg with
    | .infinity => "Pending"
    | .val a =>
      if a < 400 then "Perfect"
      else if a < 1000 then "Normal"
      else if a < 3000 then "Slow"
      else if a < 5000 then "Very Slow"
      else "Unstable"

/-- Extended JS number for the sort comparator, where `Infinity` keys and
`Infinity - Infinity = NaN` occur. -/
inductive JsNum where
  | nan
  | inf
  | ninf
  | fin (q : ℚ)
deriving DecidableEq

/-- JS subtraction on extended numbers, as used for `cmp = aKey - bKey`. -/
def JsNum.sub : JsNum → JsNum → JsNum
  | .nan, _ => .nan
  | _, .nan => .nan
  | .inf, .inf => .nan
  | .inf, _ => .inf
  | .ninf, .ninf => .nan
  | .ninf, _ => .ninf
  | .fin _, .inf => .ninf
  | .fin _, .ninf => .inf
  | .fin a, .fin b => .fin (a - b)

/-- JS unary minus, for `sortDirection === asc ? cmp : -cmp`. -/
def JsNum.negJs : JsNum → JsNum
  | .nan => .nan
  | .inf => .ninf
  | .ninf => .inf
  | .fin q => .fin (-q)

/-- JS test `cmp > 0` (false on NaN): the only way the sort swaps a pair. -/
def JsNum.isPos : JsNum → Bool
  | .nan => false
  | .inf => true
  | .ninf => false
  | .fin q => decide (0 < q)

/-- String.localeCompare modelled as code-point order (its sign is all the
sort consumes, and locale sensitivity is not observable by the claims). -/
def strCmp (a b : String) : JsNum :=
  if a < b then .fin (-1) else if b < a then .fin 1 else .fin 0

/-- JS `Array.prototype.indexOf` on a list of strings: index or -1. -/
def jsIndexOf (l : List String) (s : String) : Int :=
  let i := l.indexOf s
  if i = l.length then -1 else i

/-- Core `parseSwe`: parseFloat of the score with the percent sign removed,
NaN coalesced to 0. `parseFloat` is the JS builtin, supplied as `pf`
(`none` models NaN). -/
def parseSwe (pf : String → Option ℚ) (score : String) : ℚ :=
  if score = "" || score = "—" then 0
  else (pf (score.replace "%" "")).getD 0

/-- Core `parseCtx`: context size in thousands; NaN (`none` from `pf`)
propagates through the multiplication, hence a `JsNum` result. -/
def parseCtx (pf : String → Option ℚ) (ctx : String) : JsNum :=
  if ctx = "" || ctx = "—" then .fin 0
  else
    let str := ctx.toLower
    if str.contains 'm' then
      match pf (str.replace "m" "") with
      | some num => .fin (num * 1000)
      | none => .nan
    else if str.contains 'k' then
      match pf (str.replace "k" "") with
      | some num => .fin num
      | none => .nan
    else .fin 0

/-- Key used by the comparator's ping column: the last ping's ms when its
code is 200 and ms is numeric, otherwise Infinity. -/
def lastPingKey (r : ModelResult) : JsNum :=
  match r.pings.getLast? with
  | some p =>
    match p.ms with
    | .num n => if p.code = "200" then .fin n else .inf
    | .timeout => .inf
  | none => .inf

/-- Value of `getAvg` as the JS number it is in the source. -/
def AvgResult.toJsNum : AvgResult → JsNum
  | .infinity => .inf
  | .val n => .fin n

/-- The `switch (sortColumn)` comparator body of core `sortResults`. -/
def sortCmp (pf : String → Option ℚ) (sortColumn : String)
    (a b : ModelResult) : JsNum :=
  match sortColumn with
  | "rank" => .fin ((a.idx : ℚ) - (b.idx : ℚ))
  | "tier" =>
    .fin (((jsIndexOf TIER_ORDER_CONST a.tier : ℚ)) -
      ((jsIndexOf TIER_ORDER_CONST b.tier : ℚ)))
  | "origin" => strCmp (a.providerKey.getD "nvidia") (b.providerKey.getD "nvidia")
  | "model" => strCmp a.label b.label
  | "ping" => (lastPingKey a).sub (lastPingKey b)
  | "avg" => (getAvg a).toJsNum.sub (getAvg b).toJsNum
  | "swe" => .fin (parseSwe pf a.sweScore - parseSwe pf b.sweScore)
  | "ctx" => (parseCtx pf a.ctx).sub (parseCtx pf b.ctx)
  | "condition" => strCmp a.status b.status
  | "verdict" =>
    .fin (((jsIndexOf VERDICT_ORDER_CONST (getVerdict a) : ℚ)) -
      ((jsIndexOf VERDICT_ORDER_CONST (getVerdict b) : ℚ)))
  | "uptime" => .fin ((getUptime a : ℚ) - (getUptime b : ℚ))
  | _ => .fin 0

/-- Comparator with the direction applied (`asc ? cmp : -cmp`). -/
def sortCmpDir (pf : String → Option ℚ) (sortColumn sortDirection : String)
    (a b : ModelResult) : JsNum :=
  let cmp := sortCmp pf sortColumn a b
  if sortDirection = "asc" then cmp else cmp.negJs

/-- Core `sortResults`: copies the input (`[...results]`) and stable-sorts
the copy; JS stable sort keeps `a` before `b` unless the comparator is
positive, which is `mergeSort` with that boolean order. -/
def sortResults (pf : String → Option ℚ) (results : List ModelResult)
    (sortColumn sortDirection : String) : List ModelResult :=
  results.mergeSort (fun a b => !(sortCmpDir pf sortColumn sortDirection a b).isPos)

/-- Core `filterByTier`: uppercase the letter, look it up in
`TIER_LETTER_MAP_CONST`, `null` when absent, else keep the allowed tiers. -/
def filterByTier (results : List ModelResult) (tierLetter : String) :
    Option (List ModelResult) :=
  let letter := jsToUpper tierLetter
  match TIER_LETTER_MAP_CONST.lookup letter with
  | none => none
  | some allowed => some (results.filter (fun r => allowed.contains r.tier))

/-- Core `filterByProvider`. -/
def filterByProvider (results : List ModelResult) (providerKey : String) :
    List ModelResult :=
  results.filter (fun r => r.providerKey = some providerKey)

/-- Result type of core `ping`. -/
structure PingResponse where
  code : String
  ms : Ms
deriving DecidableEq, Repr

/-- How the `fetch` inside a probe settles, absent any timeout: an HTTP
response with a status code, or a transport-level rejection. -/
inductive FetchSettle where
  | resolved (status : Nat)
  | rejected
deriving DecidableEq, Repr

/-- Core `ping`: an AbortController timer aborts the fetch after
`timeout` ms. `fetchTime` is when the fetch would otherwise settle; if
the timer fires first the catch sees an AbortError and reports code 000
with ms TIMEOUT, otherwise the settled status (or ERR on a transport
rejection) is reported with the measured elapsed time. When the fetch
settles exactly at the budget the fetch is taken to win the race. -/
def ping (timeout fetchTime : Nat) (settle : FetchSettle) : PingResponse :=
  if timeout < fetchTime then { code := "000", ms := .timeout }
  else
    match settle with
    | .resolved status => { code := toString status, ms := .num fetchTime }
    | .rejected => { code := "ERR", ms := .num fetchTime }

end Core

/-- JSON body produced by both API routes:
`{ success: boolean; latency?: number; message?: string }`. -/
structure PingJson where
  success : Bool
  latency : Option Nat
  message : Option String
deriving DecidableEq, Repr

namespace PingModelRoute

/-! Embedding of the `/api/ping-model` route (src/unnamed/part_005). -/

open FreeModels.Core (FetchSettle)

/-- Entry of `PROVIDER_CONFIGS`: endpoint URL and env-var name (the
`getModelUrl` of googleai only builds the request URL, not the result). -/
structure ProviderConfig where
  url : String
  envVar : String
deriving DecidableEq, Repr

def PROVIDER_CONFIGS : List (String × ProviderConfig) :=
  [("nvidia", ⟨"https://integrate.api.nvidia.com/v1/chat/completions", "NVIDIA_API_KEY"⟩),
   ("groq", ⟨"https://api.groq.com/openai/v1/chat/completions", "GROQ_API_KEY"⟩),
   ("cerebras", ⟨"https://api.cerebras.ai/v1/chat/completions", "CEREBRAS_API_KEY"⟩),
   ("sambanova", ⟨"https://api.sambanova.ai/v1/chat/completions", "SAMBANOVA_API_KEY"⟩),
   ("openrouter", ⟨"https://openrouter.ai/api/v1/chat/completions", "OPENROUTER_API_KEY"⟩),
   ("codestral", ⟨"https://codestral.mistral.ai/v1/chat/completions", "CODESTRAL_API_KEY"⟩),
   ("googleai", ⟨"https://generativelanguage.googleapis.com/v1beta/models", "GOOGLE_API_KEY"⟩),
   ("mistral", ⟨"https://api.mistral.ai/v1/chat/completions", "MISTRAL_API_KEY"⟩),
   ("fireworks", ⟨"https://api.fireworks.ai/inference/v1/chat/completions", "FIREWORKS_API_KEY"⟩),
   ("hyperbolic", ⟨"https://api.hyperbolic.xyz/v1/chat/completions", "HYPERBOLIC_API_KEY"⟩),
   ("scaleway", ⟨"https://api.scaleway.ai/v1/chat/completions", "SCALEWAY_API_KEY"⟩)]

/-- JS `res.ok`: status in the 2xx range (200..299). -/
def resOk (status : Nat) : Bool := 200 ≤ status && status ≤ 299

/-- Route `pingModel` of part_005. It performs exactly one outbound fetch
for a known provider (with no timeout attached); `settle` is how that
fetch settles and `elapsed` the measured `Date.now() - startTime`.
The googleai branch and the OpenAI-compatible branch are written out
separately, as in the source. -/
def pingModel (provider : String) (settle : FetchSettle) (elapsed : Nat) :
    PingJson :=
  match PROVIDER_CONFIGS.lookup provider with
  | none => { success := false, latency := none, message := some "Unknown provider" }
  | some _ =>
    if provider = "googleai" then
      match settle with
      | .resolved status =>
        if resOk status then { success := true, latency := some elapsed, message := none }
        else if status = 404 then
          { success := false, latency := some elapsed, message := some "Model not found" }
        else if status = 401 then
          { success := false, latency := some elapsed, message := some "Invalid API key" }
        else if status = 429 then
          { success := false, latency := some elapsed, message := some "Rate limited" }
        else
          { success := false, latency := some elapsed,
            message := some ("HTTP " ++ toString status) }
      | .rejected =>
        { success := false, latency := some elapsed, message := some "Network error" }
    else
      match settle with
      | .resolved status =>
        if resOk status then { success := true, latency := some elapsed, message := none }
        else if status = 404 then
          { success := false, latency := some elapsed, message := some "Model not found" }
        else if status = 401 then
          { success := false, latency := some elapsed, message := some "Invalid API key" }
        else if status = 429 then
          { success := false, latency := some elapsed, message := some "Rate limited" }
        else
          { success := false, latency := some elapsed,
            message := some ("HTTP " ++ toString status) }
      | .rejected =>
        { success := false, latency := some elapsed, message := some "Network error" }

/-- Result of the route's `POST` handler: an early 400 JSON response, or
the `pingModel` result (the only case that reaches the provider). -/
inductive PostResult where
  | badRequest (message : String)
  | ok (result : PingJson)
deriving DecidableEq, Repr

/-- The `POST` handler's guard chain: provider, model, then apiKey are
required to be truthy before `pingModel` runs. -/
def POST (provider model apiKey : Option String) (settle : FetchSettle)
    (elapsed : Nat) : PostResult :=
  if jsFalsyStr provider then .badRequest "Provider not specified"
  else if jsFalsyStr model then .badRequest "Model not specified"
  else if jsFalsyStr apiKey then .badRequest "API key not provided"
  else .ok (pingModel (provider.getD "") settle elapsed)

end PingModelRoute

namespace PingRoute

/-! Embedding of the `/api/ping` route (src/unnamed/part_006). -/

open FreeModels.Core (FetchSettle)
open FreeModels.PingModelRoute (resOk)

/-- Entry of `PROVIDER_ENDPOINTS`: endpoint URL and the fixed model. -/
structure ProviderEndpoint where
  url : String
  model : String
deriving DecidableEq, Repr

def PROVIDER_ENDPOINTS : List (String × ProviderEndpoint) :=
  [("NVIDIA_API_KEY", ⟨"https://integrate.api.nvidia.com/v1/chat/completions", "meta/llama-3.1-8b-instruct"⟩),
   ("GROQ_API_KEY", ⟨"https://api.groq.com/openai/v1/chat/completions", "llama-3.1-8b-instant"⟩),
   ("CEREBRAS_API_KEY", ⟨"https://api.cerebras.ai/v1/chat/completions", "llama-3.1-8b"⟩),
   ("SAMBANOVA_API_KEY", ⟨"https://api.sambanova.ai/v1/chat/completions", "Meta-Llama-3.1-8B-Instruct"⟩),
   ("OPENROUTER_API_KEY", ⟨"https://openrouter.ai/api/v1/chat/completions", "openrouter/free"⟩),
   ("CODESTRAL_API_KEY", ⟨"https://codestral.mistral.ai/v1/chat/completions", "codestral-latest"⟩),
   ("GOOGLE_API_KEY", ⟨"https://generativelanguage.googleapis.com/v1beta/models/gemma-3-4b-it:generateContent", "gemma-3-4b-it"⟩),
   ("MISTRAL_API_KEY", ⟨"https://api.mistral.ai/v1/chat/completions", "open-mistral-nemo"⟩)]

/-- Route `pingProvider` of part_006. Like the part_005 route it attaches
no timeout; its GOOGLE_API_KEY branch reports every non-ok status as
`HTTP code`, and its generic branch special-cases only 401 and 429. -/
def pingProvider (keyName : String) (settle : FetchSettle) (elapsed : Nat) :
    PingJson :=
  match PROVIDER_ENDPOINTS.lookup keyName with
  | none => { success := false, latency := none, message := some "Unknown provider" }
  | some _ =>
    if keyName = "GOOGLE_API_KEY" then
      match settle with
      | .resolved status =>
        if resOk status then { success := true, latency := some elapsed, message := none }
        else
          { success := false, latency := some elapsed,
            message := some ("HTTP " ++ toString status) }
      | .rejected =>
        { success := false, latency := some elapsed, message := some "Network error" }
    else
      match settle with
      | .resolved status =>
        if resOk status then { success := true, latency := some elapsed, message := none }
        else if status = 401 then
          { success := false, latency := some elapsed, message := some "Invalid API key" }
        else if status = 429 then
          { success := false, latency := some elapsed, message := some "Rate limited" }
        else
          { success := false, latency := some elapsed,
            message := some ("HTTP " ++ toString status) }
      | .rejected =>
        { success := false, latency := some elapsed, message := some "Network error" }

end PingRoute

/-- Entry written into the `pingStatuses` map by the explorer clients
(status, optional latency and message from the route JSON, and the
`lastChecked` Date.now() stamp set on settled results). -/
structure StatusEntry where
  status : String
  latency : Option Nat
  message : Option String
  lastChecked : Option Nat
deriving DecidableEq, Repr

/-- A write into the `pingStatuses` map, keyed by `providerKey-modelId`. -/
structure StatusWrite where
  key : String
  entry : StatusEntry
deriving DecidableEq, Repr

/-- How the `await fetch(/api/ping-model)` + `await res.json()` pair
settles as observed by the client: resolved with the route's JSON body,
rejected with an AbortError (the fetch's signal aborted it in flight),
or rejected with another error (transport failure). -/
inductive ClientSettle where
  | resolved (data : PingJson)
  | abortError
  | otherError
deriving DecidableEq, Repr

namespace Explorer

/-! Embedding of the explorer client in src/unnamed/part_007: `pingModel`
(which receives the cycle's AbortSignal) and the `runMonitoring` loop. -/

def MONITORING_INTERVAL : Nat := 30

/-- Continuation of part_007 `pingModel` after its fetch settles: the
status write it performs, given whether the abort signal is already set
when the continuation runs. A resolved response is dropped when
`signal.aborted` holds, and an AbortError rejection is dropped in the
catch; only a non-abort rejection writes unconditionally. -/
def pingModelSettleWrite (key : String) (aborted : Bool)
    (settle : ClientSettle) (now : Nat) : Option StatusWrite :=
  match settle with
  | .resolved data =>
    if aborted then none
    else
      some { key := key,
             entry := { status := if data.success then "success" else "error",
                        latency := data.latency, message := data.message,
                        lastChecked := some now } }
  | .abortError => none
  | .otherError =>
    some { key := key,
           entry := { status := "error", latency := none,
                      message := some "Network error", lastChecked := none } }

/-- Part_007 `pingModel` in full: the list of `pingStatuses` writes it
performs and the number of fetches it issues. `apiKey` is what
`getApiKey(providerKey)` returned from localStorage. -/
def pingModel (modelId providerKey : String) (apiKey : Option String)
    (settle : ClientSettle) (aborted : Bool) (now : Nat) :
    List StatusWrite × Nat :=
  let key := providerKey ++ "-" ++ modelId
  let pendingWrite : StatusWrite :=
    { key := key,
      entry := { status := "pending", latency := none, message := none,
                 lastChecked := none } }
  if jsFalsyStr apiKey then
    ([pendingWrite,
      { key := key,
        entry := { status := "error", latency := none,
                   message := some "No API key", lastChecked := none } }], 0)
  else
    (pendingWrite :: (pingModelSettleWrite key aborted settle now).toList, 1)

/-- Part_007 `runMonitoring`, driven by a fuel bound on the number of
remaining cycles: while `liveMonitoring && !isCancelled && targets ≠ []`,
probe every target of the snapshot concurrently, await
`Promise.allSettled` of the whole batch, sleep, and loop. The effect
starts the loop only when `liveMonitoring` holds and the flag is closed
over, so cancellation is the `isCancelled` flag read at the top of
iteration `k`; `outcome k t` is the settled outcome of target `t` in
cycle `k`. The returned trace is the list of executed batches. -/
def runMonitoring {α σ : Type} (cancelled : Nat → Bool) (targets : List α)
    (outcome : Nat → α → σ) : Nat → Nat → List (List (α × σ))
  | 0, _ => []
  | fuel + 1, k =>
    if cancelled k || targets.isEmpty then []
    else
      (targets.map (fun t => (t, outcome k t))) ::
        runMonitoring cancelled targets outcome fuel (k + 1)

/-- Launch time of cycle `k` in the part_007 loop: the next batch starts
only after the previous batch has fully settled (its duration
`batchDur`) plus the interval sleep. -/
def cycleStartAwait (interval : Nat) (batchDur : Nat → Nat) : Nat → Nat
  | 0 => 0
  | k + 1 => cycleStartAwait interval batchDur k + batchDur k + interval

end Explorer

namespace DashboardPage

/-! Embedding of apps/dashboard/src/app/explorer/page.tsx: `pingModel`
without any AbortSignal, and a monitoring effect whose next cycle is
scheduled by `setTimeout` a fixed interval after the batch STARTS. -/

def MONITORING_INTERVAL : Nat := 30

/-- Continuation of the dashboard page `pingModel` after its fetch
settles. No signal exists in this variant: a resolved response is always
written, and the catch-all writes a network error for any rejection. -/
def pingModelSettleWrite (key : String) (settle : ClientSettle)
    (now : Nat) : Option StatusWrite :=
  match settle with
  | .resolved data =>
    some { key := key,
           entry := { status := if data.success then "success" else "error",
                      latency := data.latency, message := data.message,
                      lastChecked := some now } }
  | .abortError =>
    some { key := key,
           entry := { status := "error", latency := none,
                      message := some "Network error", lastChecked := none } }
  | .otherError =>
    some { key := key,
           entry := { status := "error", latency := none,
                      message := some "Network error", lastChecked := none } }

/-- Dashboard page `pingModel` in full: writes performed and fetches
issued. -/
def pingModel (modelId providerKey : String) (apiKey : Option String)
    (settle : ClientSettle) (now : Nat) : List StatusWrite × Nat :=
  let key := providerKey ++ "-" ++ modelId
  let pendingWrite : StatusWrite :=
    { key := key,
      entry := { status := "pending", latency := none, message := none,
                 lastChecked := none } }
  if jsFalsyStr apiKey then
    ([pendingWrite,
      { key := key,
        entry := { status := "error", latency := none,
                   message := some "No API key", lastChecked := none } }], 0)
  else
    (pendingWrite :: (pingModelSettleWrite key settle now).toList, 1)

/-- Launch time of cycle `k` in the fixed-cadence variants (the dashboard
page's immediate `setTimeout` rescheduling and the settings page's
`setInterval`): a new batch starts every `interval` ms after the
previous batch STARTED, whether or not that batch has settled. -/
def cycleStartFixed (interval k : Nat) : Nat := k * interval

end DashboardPage

/-- Cycle `k`'s probe for a target is launched while cycle `j`'s probe for
the same target is still in flight: `j` ran earlier yet its probe (of
duration `dur j`) settles only after cycle `k` starts. -/
def probesOverlap (start dur : Nat → Nat) (j k : Nat) : Prop :=
  j < k ∧ start k < start j + dur j

/-- Stated from the spec wording, for comparison with `Core.getAvg`: the
derived average latency is the rounded arithmetic mean of the ms values
of the successful pings, `Infinity` when there are none. -/
def specMeanRounded (l : List Nat) : Core.AvgResult :=
  if l = [] then .infinity else .val (jsRound l.sum l.length)

/-! ## Helper lemmas -/

/-- Folding `fun s p => s + msToNum p.ms` accumulates the mapped sum. -/
theorem foldl_add_msToNum (l : List PingResult) (n : Nat) :
    l.foldl (fun sum p => sum + Core.msToNum p.ms) n =
      n + (l.map (fun p => Core.msToNum p.ms)).sum := by
  induction l generalizing n with
  | nil => simp
  | cons p t ih => simp [List.foldl_cons, ih]; ring

/-- In the awaiting loop, a later cycle starts only after an earlier
cycle's full batch duration has elapsed. -/
theorem cycleStartAwait_batch_le (interval : Nat) (batchDur : Nat → Nat)
    {j k : Nat} (h : j < k) :
    Explorer.cycleStartAwait interval batchDur j + batchDur j ≤
      Explorer.cycleStartAwait interval batchDur k := by
  induction k with
  | zero => omega
  | succ n ih =>
    rcases Nat.lt_succ_iff_lt_or_eq.mp h with h' | h'
    · calc Explorer.cycleStartAwait interval batchDur j + batchDur j
          ≤ Explorer.cycleStartAwait interval batchDur n := ih h'
        _ ≤ Explorer.cycleStartAwait interval batchDur (n + 1) := by
            simp [Explorer.cycleStartAwait]; omega
    · subst h'
      simp [Explorer.cycleStartAwait]

/-- Length of the monitoring trace does not depend on the outcomes. -/
theorem runMonitoring_length_outcome_free {α σ : Type} (cancelled : Nat → Bool)
    (targets : List α) (o o' : Nat → α → σ) (fuel k : Nat) :
    (Explorer.runMonitoring cancelled targets o fuel k).length =
      (Explorer.runMonitoring cancelled targets o' fuel k).length := by
  induction fuel generalizing k with
  | zero => rfl
  | succ n ih =>
    simp only [Explorer.runMonitoring]
    by_cases h : cancelled k || targets.isEmpty
    · simp [h]
    · simp [h, ih]

/-- Every executed batch probes exactly the snapshot target list, each
target once, in order. -/
theorem runMonitoring_batches {α σ : Type} (cancelled : Nat → Bool)
    (targets : List α) (o : Nat → α → σ) (fuel k : Nat) :
    ∀ b ∈ Explorer.runMonitoring cancelled targets o fuel k,
      b.map Prod.fst = targets := by
  induction fuel generalizing k with
  | zero => intro b hb; simp [Explorer.runMonitoring] at hb
  | succ n ih =>
    intro b hb
    simp only [Explorer.runMonitoring] at hb
    by_cases h : cancelled k || targets.isEmpty
    · simp [h] at hb
    · simp only [h, if_neg, Bool.false_eq_true, not_false_eq_true,
        List.mem_cons] at hb
      rcases hb with hb | hb
      · subst hb; simp [Function.comp_def]
      · exact ih (k + 1) b hb

/-- The values of `TIER_LETTER_MAP_CONST`. -/
theorem tier_letter_map_values {u : String} {allowed : List String}
    (h : Core.TIER_LETTER_MAP_CONST.lookup u = some allowed) :
    allowed = ["S+", "S"] ∨ allowed = ["A+", "A", "A-"] ∨
      allowed = ["B+", "B"] ∨ allowed = ["C"] := by
  simp only [Core.TIER_LETTER_MAP_CONST, List.lookup] at h
  split at h
  · exact Or.inl (Option.some.inj h).symm
  · split at h
    · exact Or.inr (Or.inl (Option.some.inj h).symm)
    · split at h
      · exact Or.inr (Or.inr (Or.inl (Option.some.inj h).symm))
      · split at h
        · exact Or.inr (Or.inr (Or.inr (Option.some.inj h).symm))
        · simp [List.lookup] at h

/-! ## Claim theorems -/

/-- C9: for every input list of ModelResults and every sort column and
direction, `sortResults` returns a new array that is a permutation of the
input. The source copies the input (`[...results]`) before the in-place
sort, so the input array itself is left unmodified; the pure embedding
reflects exactly that copy-then-sort shape. -/
theorem C9_sortResults_perm (pf : String → Option ℚ)
    (results : List ModelResult) (sortColumn sortDirection : String) :
    (Core.sortResults pf results sortColumn sortDirection).Perm results :=
  List.mergeSort_perm results _

/-- C10: core `filterByTier` returns null for any tier letter outside
S/A/B/C (case-insensitively, including D); for letter B it keeps only
tiers B+ and B; and no non-null result ever contains a model of tier
B-, C+ or D. -/
theorem C10_filterByTier (results : List ModelResult) :
    (∀ s : String, jsToUpper s ∉ ["S", "A", "B", "C"] →
      Core.filterByTier results s = none)
    ∧ (∀ r ∈ (Core.filterByTier results "B").getD [],
        r.tier = "B+" ∨ r.tier = "B")
    ∧ (∀ (s : String) (out : List ModelResult),
        Core.filterByTier results s = some out →
        ∀ r ∈ out, r.tier ≠ "B-" ∧ r.tier ≠ "C+" ∧ r.tier ≠ "D") := by
  refine ⟨?_, ?_, ?_⟩
  · intro s h
    simp only [List.mem_cons, List.not_mem_nil, or_false, not_or] at h
    obtain ⟨h1, h2, h3, h4⟩ := h
    have e1 : (jsToUpper s == "S") = false := by simp [h1]
    have e2 : (jsToUpper s == "A") = false := by simp [h2]
    have e3 : (jsToUpper s == "B") = false := by simp [h3]
    have e4 : (jsToUpper s == "C") = false := by simp [h4]
    simp [Core.filterByTier, Core.TIER_LETTER_MAP_CONST, List.lookup,
      e1, e2, e3, e4]
  · intro r hr
    have hB : Core.filterByTier results "B" =
        some (results.filter
          (fun r => (["B+", "B"] : List String).contains r.tier)) := rfl
    rw [hB] at hr
    simp only [Option.getD_some, List.mem_filter] at hr
    have := hr.2
    simpa using this
  · intro s out hout r hr
    simp only [Core.filterByTier] at hout
    cases hlook : Core.TIER_LETTER_MAP_CONST.lookup (jsToUpper s) with
    | none => rw [hlook] at hout; exact absurd hout (by simp)
    | some allowed =>
      rw [hlook] at hout
      have hout' : out = results.filter (fun r => allowed.contains r.tier) :=
        (Option.some.inj hout).symm
      subst hout'
      have hmem : r.tier ∈ allowed := by
        have := (List.mem_filter.mp hr).2
        simpa using this
      have hbig : r.tier ∈
          ["S+", "S", "A+", "A", "A-", "B+", "B", "C"] := by
        rcases tier_letter_map_values hlook with h | h | h | h <;> subst h <;>
          exact (by decide :
            _ ⊆ ["S+", "S", "A+", "A", "A-", "B+", "B", "C"]) hmem
      simp only [List.mem_cons, List.not_mem_nil, or_false] at hbig
      rcases hbig with h | h | h | h | h | h | h | h <;> simp [h]

/-- C10 witness: the letter D (outside S/A/B/C) yields null. -/
theorem C10_filterByTier_witness : Core.filterByTier [] "D" = none :=
  (C10_filterByTier []).1 "D" (by decide)

/-- C7: core `getAvg` equals the rounded arithmetic mean of the ms values
of exactly the pings whose code is 200 (here the list `l` of those
numeric ms values), and Infinity when there is no such ping. -/
theorem C7_getAvg_mean (r : ModelResult) (l : List Nat)
    (h : (r.pings.filter (fun p => p.code = "200")).map PingResult.ms =
      l.map Ms.num) :
    Core.getAvg r = specMeanRounded l := by
  have hlen : (r.pings.filter (fun p => p.code = "200")).length = l.length := by
    have := congrArg List.length h
    simpa using this
  have hsum :
      ((r.pings.filter (fun p => p.code = "200")).map
        (fun p => Core.msToNum p.ms)).sum = l.sum := by
    have : (r.pings.filter (fun p => p.code = "200")).map
        (fun p => Core.msToNum p.ms) =
        ((r.pings.filter (fun p => p.code = "200")).map PingResult.ms).map
          Core.msToNum := by
      simp [List.map_map, Function.comp_def]
    rw [this, h, List.map_map]
    simp [Function.comp_def, Core.msToNum]
  simp only [Core.getAvg, specMeanRounded, foldl_add_msToNum, Nat.zero_add,
    hsum, hlen]
  rcases Decidable.em (l = []) with hl | hl
  · subst hl; simp
  · simp [hl, List.length_eq_zero, jsRound]

/-- C7 witness: pings 100 ms and 301 ms succeeded (code 200), one 500
failed; the average is round(401 / 2) = 201. -/
theorem C7_getAvg_mean_witness :
    Core.getAvg
      { idx := 1, modelId := "m", label := "M", tier := "S",
        sweScore := "70%", ctx := "128k", providerKey := some "groq",
        status := "up",
        pings := [⟨Ms.num 100, "200"⟩, ⟨Ms.num 50, "500"⟩,
          ⟨Ms.num 301, "200"⟩],
        httpCode := none, hidden := false } =
      specMeanRounded [100, 301] :=
  C7_getAvg_mean _ [100, 301] (by decide)

/-- C3: for every probe whose credential is absent or empty, both
explorer-client variants of `pingModel` record the error entry with
message No API key and issue zero network calls, and the part_005 route
handler rejects a falsy apiKey with a 400 before `pingModel` (and hence
before any provider fetch) runs. -/
theorem C3_missing_credential (modelId providerKey : String)
    (apiKey : Option String) (h : jsFalsyStr apiKey = true)
    (settle : ClientSettle) (aborted : Bool) (now : Nat)
    (provider model : Option String) (rsettle : Core.FetchSettle)
    (elapsed : Nat) (hprov : jsFalsyStr provider = false)
    (hmodel : jsFalsyStr model = false) :
    (Explorer.pingModel modelId providerKey apiKey settle aborted now =
      ([⟨providerKey ++ "-" ++ modelId, ⟨"pending", none, none, none⟩⟩,
        ⟨providerKey ++ "-" ++ modelId,
          ⟨"error", none, some "No API key", none⟩⟩], 0))
    ∧ (DashboardPage.pingModel modelId providerKey apiKey settle now =
      ([⟨providerKey ++ "-" ++ modelId, ⟨"pending", none, none, none⟩⟩,
        ⟨providerKey ++ "-" ++ modelId,
          ⟨"error", none, some "No API key", none⟩⟩], 0))
    ∧ PingModelRoute.POST provider model apiKey rsettle elapsed =
        .badRequest "API key not provided" := by
  refine ⟨?_, ?_, ?_⟩
  · simp [Explorer.pingModel, h]
  · simp [DashboardPage.pingModel, h]
  · simp [PingModelRoute.POST, h, hprov, hmodel]

/-- C3 witness: absent key (localStorage returned null) for one model. -/
theorem C3_missing_credential_witness :
    Explorer.pingModel "m1" "groq" none ClientSettle.otherError false 7 =
      ([⟨"groq-m1", ⟨"pending", none, none, none⟩⟩,
        ⟨"groq-m1", ⟨"error", none, some "No API key", none⟩⟩], 0) :=
  (C3_missing_credential "m1" "groq" none rfl ClientSettle.otherError false 7
    (some "groq") (some "m1") Core.FetchSettle.rejected 5 rfl rfl).1

/-- C1 counterexample: the dashboard explorer page variant of `pingModel`
receives no AbortSignal, so `stop()` cannot reach it and its settle
continuation is the same function whether or not monitoring was stopped;
a probe whose HTTP response resolves (successfully, 120 ms) after the
stop call still writes its status entry, refuting zero
StatusSnapshot writes after stop. -/
theorem C1_counterexample :
    DashboardPage.pingModelSettleWrite "groq-m1"
      (ClientSettle.resolved { success := true, latency := some 120, message := none })
      99 =
      some ⟨"groq-m1", ⟨"success", some 120, none, some 99⟩⟩ := rfl

/-- C1 amended: in the part_007 explorer variant, whose `pingModel` gets
the cycle's AbortSignal (and `stop` aborts the controller synchronously
before returning, so the signal is set for every continuation that runs
after stop), a probe whose response resolves after stop writes nothing,
and an abort rejection writes nothing; the dashboard page variant,
which passes no signal, still performs its write. -/
theorem C1_stop_suppresses_late_writes (key : String) (data : PingJson)
    (now : Nat) :
    Explorer.pingModelSettleWrite key true (ClientSettle.resolved data) now = none
    ∧ Explorer.pingModelSettleWrite key true ClientSettle.abortError now = none
    ∧ (DashboardPage.pingModelSettleWrite key (ClientSettle.resolved data) now).isSome
        = true :=
  ⟨rfl, rfl, rfl⟩

/-- C2 counterexample: in the fixed-cadence variants (settings page
`setInterval`, dashboard page immediate `setTimeout`) cycle 1 launches at
30000 ms while cycle 0's probe of 40000 ms duration for the same target
is still in flight, refuting that a new cycle waits until the previous
batch has fully settled. -/
theorem C2_counterexample :
    probesOverlap (DashboardPage.cycleStartFixed 30000) (fun _ => 40000) 0 1 :=
  ⟨by decide, by decide⟩

/-- C2 amended: the part_007 explorer `runMonitoring` loop awaits
`Promise.allSettled` of the whole batch (duration `batchDur`) before
sleeping and starting the next cycle, so a probe (of duration at most
its batch) in an earlier cycle never overlaps a later cycle's probe for
the same key; the fixed-cadence variants admit the overlap above. -/
theorem C2_await_no_overlap (interval : Nat) (batchDur durP : Nat → Nat)
    (hP : ∀ n, durP n ≤ batchDur n) (j k : Nat) (hjk : j < k) :
    ¬ probesOverlap (Explorer.cycleStartAwait interval batchDur) durP j k := by
  intro hov
  have h1 := cycleStartAwait_batch_le interval batchDur hjk
  have h2 := hP j
  have h3 := hov.2
  omega

/-- C2 witness: with batches of 7 ms containing probes of 5 ms and a
30000 ms interval, cycles 0 and 1 do not overlap in the awaiting loop. -/
theorem C2_await_no_overlap_witness :
    ¬ probesOverlap (Explorer.cycleStartAwait 30000 (fun _ => 7))
      (fun _ => 7) 0 1 :=
  C2_await_no_overlap 30000 (fun _ => 7) (fun _ => 7) (fun _ => le_refl _) 0 1
    (by decide)

/-- C4 counterexample: `pingProvider`'s Google branch reports a 401 as
HTTP 401 instead of Invalid API key, and its generic branch reports a
404 as HTTP 404 instead of Model not found, so the claimed
classification does not hold uniformly across the cited branches. -/
theorem C4_counterexample :
    (PingRoute.pingProvider "GOOGLE_API_KEY"
      (Core.FetchSettle.resolved 401) 5).message = some "HTTP 401"
    ∧ (PingRoute.pingProvider "NVIDIA_API_KEY"
      (Core.FetchSettle.resolved 404) 5).message = some "HTTP 404" :=
  ⟨rfl, rfl⟩

/-- C4 amended: the classification rule holds uniformly for both the
generic and the googleai branch of the part_005 route `pingModel`
(success on 2xx with the measured latency, the three fixed messages on
401/404/429, HTTP code otherwise, Network error on transport failure);
part_006's `pingProvider` follows it only in its generic branch and only
for 401/429 (its Google branch flattens every non-2xx to HTTP code and
its generic branch reports 404 as HTTP 404). -/
theorem C4_classification (provider : String)
    (hp : (PingModelRoute.PROVIDER_CONFIGS.lookup provider).isSome = true)
    (status elapsed : Nat) :
    (PingModelRoute.pingModel provider (Core.FetchSettle.resolved 200) elapsed =
      { success := true, latency := some elapsed, message := none })
    ∧ (PingModelRoute.pingModel provider (Core.FetchSettle.resolved 401) elapsed =
      { success := false, latency := some elapsed,
        message := some "Invalid API key" })
    ∧ (PingModelRoute.pingModel provider (Core.FetchSettle.resolved 404) elapsed =
      { success := false, latency := some elapsed,
        message := some "Model not found" })
    ∧ (PingModelRoute.pingModel provider (Core.FetchSettle.resolved 429) elapsed =
      { success := false, latency := some elapsed,
        message := some "Rate limited" })
    ∧ (PingModelRoute.resOk status = false → status ≠ 401 → status ≠ 404 →
        status ≠ 429 →
        PingModelRoute.pingModel provider (Core.FetchSettle.resolved status) elapsed =
          { success := false, latency := some elapsed,
            message := some ("HTTP " ++ toString status) })
    ∧ (PingModelRoute.pingModel provider Core.FetchSettle.rejected elapsed =
      { success := false, latency := some elapsed,
        message := some "Network error" })
    ∧ (PingRoute.pingProvider "NVIDIA_API_KEY"
        (Core.FetchSettle.resolved 401) elapsed =
      { success := false, latency := some elapsed,
        message := some "Invalid API key" })
    ∧ (PingRoute.pingProvider "NVIDIA_API_KEY"
        (Core.FetchSettle.resolved 429) elapsed =
      { success := false, latency := some elapsed,
        message := some "Rate limited" }) := by
  obtain ⟨cfg, hcfg⟩ := Option.isSome_iff_exists.mp hp
  refine ⟨?_, ?_, ?_, ?_, ?_, ?_, rfl, rfl⟩ <;>
    simp only [PingModelRoute.pingModel, hcfg] <;>
    rw [ite_self]
  · simp [PingModelRoute.resOk]
  · simp [PingModelRoute.resOk]
  · simp [PingModelRoute.resOk]
  · simp [PingModelRoute.resOk]
  · intro hok h401 h404 h429
    simp [hok, h401, h404, h429]

/-- C4 witness: a 500 from a known provider is classified as HTTP 500. -/
theorem C4_classification_witness :
    PingModelRoute.pingModel "nvidia" (Core.FetchSettle.resolved 500) 7 =
      { success := false, latency := some 7,
        message := some ("HTTP " ++ toString 500) } :=
  (C4_classification "nvidia" (by decide) 500 7).2.2.2.2.1 (by decide)
    (by decide) (by decide) (by decide)

/-- C5 counterexample: an http-error outcome (404, Model not found) of
the part_005 route carries a latency value, refuting that latency is
present only on success. -/
theorem C5_counterexample :
    (PingModelRoute.pingModel "nvidia"
      (Core.FetchSettle.resolved 404) 5).success = false
    ∧ (PingModelRoute.pingModel "nvidia"
      (Core.FetchSettle.resolved 404) 5).latency = some 5 :=
  ⟨rfl, rfl⟩

/-- C5 amended: for every known provider both routes attach the measured
latency to EVERY outcome of an attempted fetch, success or not (http
errors and network errors included); only the unknown-provider
short-circuit lacks a latency. -/
theorem C5_latency_every_attempt (provider keyName : String)
    (hp : (PingModelRoute.PROVIDER_CONFIGS.lookup provider).isSome = true)
    (hk : (PingRoute.PROVIDER_ENDPOINTS.lookup keyName).isSome = true)
    (settle : Core.FetchSettle) (elapsed : Nat) :
    (PingModelRoute.pingModel provider settle elapsed).latency = some elapsed
    ∧ (PingRoute.pingProvider keyName settle elapsed).latency = some elapsed := by
  obtain ⟨cfg, hcfg⟩ := Option.isSome_iff_exists.mp hp
  obtain ⟨ep, hep⟩ := Option.isSome_iff_exists.mp hk
  constructor
  · simp only [PingModelRoute.pingModel, hcfg]
    rw [ite_self]
    cases settle with
    | resolved status => dsimp only; split_ifs <;> rfl
    | rejected => rfl
  · simp only [PingRoute.pingProvider, hep]
    by_cases hg : keyName = "GOOGLE_API_KEY"
    · rw [if_pos hg]
      cases settle with
      | resolved status => dsimp only; split_ifs <;> rfl
      | rejected => rfl
    · rw [if_neg hg]
      cases settle with
      | resolved status => dsimp only; split_ifs <;> rfl
      | rejected => rfl

/-- C5 witness: a rejected fetch (network error) still carries latency. -/
theorem C5_latency_every_attempt_witness :
    (PingModelRoute.pingModel "googleai" Core.FetchSettle.rejected 9).latency =
      some 9 :=
  (C5_latency_every_attempt "googleai" "GOOGLE_API_KEY" (by decide) (by decide)
    Core.FetchSettle.rejected 9).1

/-- C6 counterexample: the part_005 route probe attaches no timeout at
all: a request that took 1000000000 ms still classifies as success,
refuting that every probe carries a per-probe timeout budget whose
excess yields the timeout outcome. -/
theorem C6_counterexample :
    PingModelRoute.pingModel "nvidia" (Core.FetchSettle.resolved 200)
      1000000000 =
      { success := true, latency := some 1000000000, message := none } := rfl

/-- C6 amended: the core `ping` of part_010 does carry its own fixed
per-probe timeout (default 15000 ms, a constant unrelated to the 30 s
cycle interval): whenever the fetch would settle only after the budget,
the abort fires first and the invocation returns code 000 with ms
TIMEOUT, never a 200 success; the dashboard API-route probes attach no
timeout (see the counterexample). -/
theorem C6_core_timeout (timeout fetchTime : Nat) (h : timeout < fetchTime)
    (settle : Core.FetchSettle) :
    Core.ping timeout fetchTime settle = { code := "000", ms := Ms.timeout }
    ∧ (Core.ping timeout fetchTime settle).code ≠ "200"
    ∧ Core.DEFAULT_PING_TIMEOUT = 15000 := by
  refine ⟨by simp [Core.ping, h], ?_, rfl⟩
  simp [Core.ping, h]

/-- C6 witness: a fetch that would settle at 20000 ms against the default
15000 ms budget times out. -/
theorem C6_core_timeout_witness :
    Core.ping Core.DEFAULT_PING_TIMEOUT 20000 (Core.FetchSettle.resolved 200) =
      { code := "000", ms := Ms.timeout } :=
  (C6_core_timeout Core.DEFAULT_PING_TIMEOUT 20000 (by decide)
    (Core.FetchSettle.resolved 200)).1

/-- C8: the monitoring loop's control flow is independent of probe
outcomes (a failing probe never ends the cycle or the loop), every
executed cycle probes each snapshot target exactly once (all settle, no
retry within a cycle), and a cycle fails to run only because of
cancellation (stop) or an empty target list. -/
theorem C8_probe_failure_never_ends_loop {α σ : Type} (cancelled : Nat → Bool)
    (targets : List α) (o o' : Nat → α → σ) (fuel k : Nat) :
    ((Explorer.runMonitoring cancelled targets o fuel k).length =
      (Explorer.runMonitoring cancelled targets o' fuel k).length)
    ∧ (∀ b ∈ Explorer.runMonitoring cancelled targets o fuel k,
        b.map Prod.fst = targets)
    ∧ (Explorer.runMonitoring cancelled targets o (fuel + 1) k = [] →
        cancelled k = true ∨ targets = []) := by
  refine ⟨runMonitoring_length_outcome_free cancelled targets o o' fuel k,
    runMonitoring_batches cancelled targets o fuel k, ?_⟩
  intro hemp
  by_cases hc : cancelled k
  · exact Or.inl hc
  · by_cases ht : targets.isEmpty
    · exact Or.inr (by simpa using ht)
    · exfalso
      simp [Explorer.runMonitoring, hc, ht] at hemp

/-- C8 witness: with cancellation requested at cycle 0 the loop runs no
batch, and the theorem attributes that to the stop flag. -/
theorem C8_probe_failure_never_ends_loop_witness :
    (fun _ : Nat => true) 0 = true ∨ (["t"] : List String) = [] :=
  (C8_probe_failure_never_ends_loop (fun _ => true) ["t"]
    (fun _ _ => (0 : Nat)) (fun _ _ => 1) 1 0).2.2 rfl

end FreeModels
